import Mathlib

/-!
# FlexiCart — verification of the event-sourced cart core

Shallow embedding of the FlexiCart repository's synchronization core:
the WebSocket cart-update handler (`src/hooks/useCartUpdates.ts` and
`src/hooks/useWebSocket.ts`), the page-level cart state machine
(`src/pages/Index.tsx`), the barcode scanner's dedup filter and product
resolver (`hardware-integration/barcode/barcode_scanner_node.js`), the
RFID reader (`hardware-integration/rfid/rfid_reader_node.js`), the ESP32
load-cell stabilizer (`hardware-integration/load-cell/load_cell_esp32.ino`),
and the weight-reconciliation computation (`WeightCheckPage` in
`src/components/pages/StoreMapPage.tsx`).

Machine numbers (JS `number`, C `float`) are modelled as exact rationals;
timestamps are rationals (milliseconds unless noted).  TS structural
objects become Lean structures; `Map`/object-literal catalogs become
association lists looked up front-to-back, matching JS insertion-order
iteration.  UI-only fields (images, toast text) are omitted: no claim
mentions them.
-/

set_option maxHeartbeats 1000000

namespace FlexiCart

/-! ## Data model (src/types/index.ts) -/

/-- `Product` from `src/types/index.ts`, restricted to the fields the
cart core reads (`id`, `price`, the optional `weight` in grams, and
`category`).  The WebSocket handler materializes placeholder products
with no weight, so `weight` is optional exactly as in the TS type. -/
structure Product where
  id : String
  name : String
  price : ℚ
  weight : Option ℚ := none
  category : String := ""
  brand : String := ""
  deriving DecidableEq, Repr

/-- `CartItem` from `src/types/index.ts`: a product, an integer quantity
(JS `number`, always integral in this code), and the `addedAt` `Date`,
modelled as milliseconds since epoch. -/
structure CartItem where
  product : Product
  quantity : Int
  addedAt : ℚ
  deriving DecidableEq, Repr

/-! ## WebSocket cart-update handler (src/hooks/useCartUpdates.ts) -/

/-- The `action` discriminator of a `cart_update` message. -/
inductive CartAction
  | add
  | remove
  | update
  deriving DecidableEq, Repr

/-- `CartUpdateMessage` from `useCartUpdates.ts`: `item` carries
`(product_id, quantity)` for `add`; `product_id`/`quantity` are the
top-level fields used by `remove`/`update`.  `timestamp` is in seconds
(the adapters send `Date.now() / 1000`). -/
structure CartUpdateMessage where
  user_id : String
  action : CartAction
  item : Option (String × Int) := none
  product_id : Option String := none
  quantity : Option Int := none
  timestamp : ℚ
  deriving DecidableEq, Repr

/-- The placeholder product the hook builds for an `add` of a product it
has not seen (`useCartUpdates.ts` lines 67-74): price 0, no weight,
category `"unknown"`. -/
def wsPlaceholderProduct (pid : String) : Product :=
  { id := pid
    name := "Product " ++ pid
    price := 0
    weight := none
    category := "unknown"
    brand := "" }

/-- `case 'add'` of `handleCartUpdate`: `findIndex` locates the first
entry with the same product id and bumps its quantity by the message
quantity; if none exists a placeholder entry is pushed at the end with
`addedAt = new Date(timestamp * 1000)`. -/
def wsAddItem (pid : String) (q : Int) (addedAtMs : ℚ) : List CartItem → List CartItem
  | [] => [{ product := wsPlaceholderProduct pid, quantity := q, addedAt := addedAtMs }]
  | it :: rest =>
    if it.product.id = pid then
      { it with quantity := it.quantity + q } :: rest
    else
      it :: wsAddItem pid q addedAtMs rest

/-- `case 'update'` of `handleCartUpdate`: `findIndex` locates the first
entry with the given product id and overwrites its quantity — with no
check at all on the new quantity's sign.  Absent entry: no-op. -/
def wsSetQuantityFirst (pid : String) (q : Int) : List CartItem → List CartItem
  | [] => []
  | it :: rest =>
    if it.product.id = pid then
      { it with quantity := q } :: rest
    else
      it :: wsSetQuantityFirst pid q rest

/-- `handleCartUpdate` from `useCartUpdates.ts` lines 49-107, as a pure
function on the cart list (the `setCartItems` functional update). -/
def wsHandleCartUpdate (m : CartUpdateMessage) (items : List CartItem) : List CartItem :=
  match m.action with
  | CartAction.add =>
    match m.item with
    | some (pid, q) => wsAddItem pid q (m.timestamp * 1000) items
    | none => items
  | CartAction.remove =>
    match m.product_id with
    | some pid => items.filter (fun it => it.product.id != pid)
    | none => items
  | CartAction.update =>
    match m.product_id, m.quantity with
    | some pid, some q => wsSetQuantityFirst pid q items
    | _, _ => items

/-- The full per-session state owned by `useCartUpdates`. -/
structure SessionState where
  cartItems : List CartItem
  currentWeight : ℚ
  weightStable : Bool
  lastUpdate : ℚ
  deriving DecidableEq, Repr

/-- The two inbound message kinds dispatched by `handleMessage`. -/
inductive InboundMessage
  | cartUpdate (m : CartUpdateMessage)
  | weightUpdate (device_id : String) (weight : ℚ) (stable : Bool) (timestamp : ℚ)
  deriving Repr

/-- `handleMessage` from `useCartUpdates.ts` lines 41-47 together with
the two handlers it dispatches to: a `cart_update` is applied only when
its `user_id` equals the subscribing session's `userId` (and then also
sets `lastUpdate`); a `weight_update` is applied unconditionally. -/
def handleMessage (userId : String) (msg : InboundMessage) (s : SessionState) : SessionState :=
  match msg with
  | InboundMessage.cartUpdate m =>
    if m.user_id = userId then
      { s with cartItems := wsHandleCartUpdate m s.cartItems, lastUpdate := m.timestamp }
    else
      s
  | InboundMessage.weightUpdate _ w st _ =>
    { s with currentWeight := w, weightStable := st }

/-! ## Page-level cart state machine (src/pages/Index.tsx, `Index`) -/

/-- `handleRemoveItem`: keep every entry whose product id differs. -/
def handleRemoveItem (pid : String) (items : List CartItem) : List CartItem :=
  items.filter (fun it => it.product.id != pid)

/-- `handleAddToCart(product, quantity)`: if an entry for the product
exists, map over the list bumping the matching entries' quantity by
`quantity`; otherwise append a fresh entry with `addedAt = new Date()`
(the arrival time, passed here as `now`). -/
def handleAddToCart (p : Product) (q : Int) (now : ℚ) (items : List CartItem) : List CartItem :=
  if items.any (fun it => it.product.id == p.id) then
    items.map (fun it =>
      if it.product.id = p.id then { it with quantity := it.quantity + q } else it)
  else
    items ++ [{ product := p, quantity := q, addedAt := now }]

/-- `handleUpdateQuantity(productId, quantity)`: quantity at most 0
delegates to `handleRemoveItem`; otherwise the matching entry's quantity
is overwritten. -/
def handleUpdateQuantity (pid : String) (q : Int) (items : List CartItem) : List CartItem :=
  if q ≤ 0 then
    handleRemoveItem pid items
  else
    items.map (fun it =>
      if it.product.id = pid then { it with quantity := q } else it)

/-- The three event kinds the page-level cart state machine consumes. -/
inductive PageCartEvent
  | add (p : Product) (qty : Int) (now : ℚ)
  | setQuantity (pid : String) (qty : Int)
  | remove (pid : String)
  deriving Repr

/-- Dispatch one page-level cart event. -/
def applyPageEvent (items : List CartItem) : PageCartEvent → List CartItem
  | PageCartEvent.add p q now => handleAddToCart p q now items
  | PageCartEvent.setQuantity pid q => handleUpdateQuantity pid q items
  | PageCartEvent.remove pid => handleRemoveItem pid items

/-- Fold a whole event sequence over a starting cart, in arrival order. -/
def applyPageEvents (evs : List PageCartEvent) (items : List CartItem) : List CartItem :=
  evs.foldl applyPageEvent items

/-- An event sequence is well-formed when every `add` carries a positive
quantity (every `add` issued by the scan pages uses quantity 1 or a
positive picker value). -/
def addQtyPositive : PageCartEvent → Prop
  | PageCartEvent.add _ q _ => 1 ≤ q
  | PageCartEvent.setQuantity _ _ => True
  | PageCartEvent.remove _ => True

instance : DecidablePred addQtyPositive := by
  intro e
  cases e <;> simp only [addQtyPositive] <;> infer_instance

/-! ## Transport client (src/hooks/useWebSocket.ts) -/

/-- The observable connection state of `useWebSocket`: the `isConnected`
flag, the surfaced `error` string, the `reconnectAttempts` ref, and the
pending reconnect timer, modelled as the delay (ms) of the single
scheduled `setTimeout` when one exists. -/
structure WebSocketClientState where
  isConnected : Bool
  error : Option String
  reconnectAttempts : Nat
  pendingReconnectMs : Option ℚ
  deriving DecidableEq, Repr

/-- Default `reconnectInterval` (ms); `useCartUpdates` passes no
override. -/
def reconnectInterval : ℚ := 5000

/-- Default `maxReconnectAttempts`; `useCartUpdates` passes no
override. -/
def maxReconnectAttempts : Nat := 5

/-- State before any open or close event: fresh hook state with the
attempt counter at 0. -/
def initialClientState : WebSocketClientState :=
  { isConnected := false, error := none, reconnectAttempts := 0, pendingReconnectMs := none }

/-- The `onopen` handler (`useWebSocket.ts` lines 192-197): connected,
error cleared, attempt counter reset to 0; any timer that led here has
already fired. -/
def onOpen (s : WebSocketClientState) : WebSocketClientState :=
  { s with isConnected := true, error := none, reconnectAttempts := 0,
           pendingReconnectMs := none }

/-- The `onclose` handler (`useWebSocket.ts` lines 208-221): if the
attempt counter is below the maximum, increment it and schedule exactly
one reconnect after the fixed interval; otherwise surface the
terminal error and schedule nothing. -/
def onClose (s : WebSocketClientState) : WebSocketClientState :=
  if s.reconnectAttempts < maxReconnectAttempts then
    { s with isConnected := false,
             reconnectAttempts := s.reconnectAttempts + 1,
             pendingReconnectMs := some reconnectInterval }
  else
    { s with isConnected := false,
             error := some "Max reconnection attempts reached",
             pendingReconnectMs := none }

/-- `iterateClose n s`: the state after `n` consecutive close events
(each scheduled reconnect connects and immediately closes again). -/
def iterateClose : Nat → WebSocketClientState → WebSocketClientState
  | 0, s => s
  | n + 1, s => iterateClose n (onClose s)

/-! ## Dedup filter (barcode_scanner_node.js, `isRecentScan`) -/

/-- The sweep at the top of `isRecentScan`: delete every entry strictly
older than the 2000 ms cooldown (`now - timestamp > this.scanCooldown`). -/
def sweepScans (now : Int) (m : List (String × Int)) : List (String × Int) :=
  m.filter (fun e => decide (now - e.2 ≤ 2000))

/-- `isRecentScan(barcode)` at lines 204-222: sweep, then report whether
the code is still present; when it is absent, record `(code, now)`.
Returns the flag (`true` = recent, i.e. suppress) with the updated map.
Note the code does NOT refresh the stored timestamp when it finds the
code present — it returns immediately. -/
def isRecentScan (code : String) (now : Int) (m : List (String × Int)) :
    Bool × List (String × Int) :=
  let swept := sweepScans now m
  if swept.any (fun e => e.1 == code) then
    (true, swept)
  else
    (false, swept ++ [(code, now)])

/-- The spec's `admit` contract is the negation of `isRecentScan`:
`true` means the scan is let through. -/
def allowScan (code : String) (now : Int) (m : List (String × Int)) :
    Bool × List (String × Int) :=
  let r := isRecentScan code now m
  (!r.1, r.2)

/-- Run a sequence of `(code, timestamp)` calls through the filter,
collecting the admit decision of each call. -/
def runScanDecisions : List (String × Int) → List (String × Int) → List Bool
  | [], _ => []
  | (c, t) :: rest, m =>
    let r := allowScan c t m
    r.1 :: runScanDecisions rest r.2

/-- Helper for `claimedDecisions`: `past` accumulates all previous calls. -/
def claimedDecisionsAux : List (String × Int) → List (String × Int) → List Bool
  | [], _ => []
  | (c, t) :: rest, past =>
    decide (∀ p ∈ past, p.1 = c → t - p.2 > 2000) ::
      claimedDecisionsAux rest (past ++ [(c, t)])

/-- Modelled from the spec: the dedup contract exactly as claim C4 words
it — a call is admitted iff NO earlier call (admitted or suppressed)
with the same code lies within the preceding 2000 ms.  Used only to
compare against the code's actual behavior. -/
def claimedDecisions (calls : List (String × Int)) : List Bool :=
  claimedDecisionsAux calls []

/-! ## Product resolver (barcode_scanner_node.js) and RFID reader -/

/-- A product record of the hardware adapters' embedded catalogs
(`productDatabase` in the barcode scanner, `productMapping` in the RFID
reader): id, name, price, nominal weight in grams. -/
structure HardwareProduct where
  id : String
  name : String
  price : ℚ
  weight : ℚ
  category : String := ""
  brand : String := ""
  deriving DecidableEq, Repr

/-- Front-to-back lookup in an association-list catalog (JS object
property access over string keys). -/
def dbLookup (db : List (String × HardwareProduct)) (k : String) : Option HardwareProduct :=
  match db.find? (fun e => e.1 == k) with
  | some e => some e.2
  | none => none

/-- `this.productDatabase` of `NodeBarcodeScanner`, all 14 entries.
Constructor field order: id, name, price, weight, category, brand. -/
def productDatabase : List (String × HardwareProduct) :=
  [("000000000000", ⟨"1", "Red Apples", 299/100, 150, "fruits", "Fresh Farm"⟩),
   ("000000000001", ⟨"2", "Whole Wheat Bread", 199/100, 400, "bakery", "Artisan Bakery"⟩),
   ("000000000002", ⟨"3", "Fresh Milk", 349/100, 1000, "dairy", "Farm Fresh"⟩),
   ("000000000003", ⟨"4", "Bananas", 129/100, 120, "fruits", "Tropical Farms"⟩),
   ("000000000004", ⟨"5", "Cheddar Cheese", 499/100, 250, "dairy", "Artisan Cheese"⟩),
   ("000000000005", ⟨"6", "Croissants", 399/100, 180, "bakery", "French Bakery"⟩),
   ("000000000006", ⟨"7", "Orange Juice", 279/100, 950, "beverages", "Pure Orange"⟩),
   ("000000000007", ⟨"8", "Chicken Breast", 799/100, 450, "meat", "Premium Poultry"⟩),
   ("123456789012", ⟨"9", "Test Product", 1, 100, "test", "Test Brand"⟩),
   ("1234567890123", ⟨"10", "Demo Item", 5, 200, "demo", "Demo Co"⟩),
   ("4901234567890", ⟨"11", "Sample Product", 7/2, 150, "sample", "Sample Inc"⟩),
   ("012345678905", ⟨"12", "Premium Coffee", 1299/100, 400, "beverages", "Coffee Masters"⟩),
   ("012345678912", ⟨"13", "Organic Tea", 899/100, 200, "beverages", "Tea Garden"⟩)]

/-- `this.productMapping` of `RFIDReaderNode`, all 8 entries (these
records carry no category/brand in the source; empty strings here). -/
def productMapping : List (String × HardwareProduct) :=
  [("RF001", ⟨"1", "Red Apples", 299/100, 150, "", ""⟩),
   ("RF002", ⟨"2", "Whole Wheat Bread", 199/100, 400, "", ""⟩),
   ("RF003", ⟨"3", "Fresh Milk", 349/100, 1000, "", ""⟩),
   ("RF004", ⟨"4", "Bananas", 129/100, 120, "", ""⟩),
   ("RF005", ⟨"5", "Cheddar Cheese", 499/100, 250, "", ""⟩),
   ("RF006", ⟨"6", "Croissants", 399/100, 180, "", ""⟩),
   ("RF007", ⟨"7", "Orange Juice", 279/100, 950, "", ""⟩),
   ("RF008", ⟨"8", "Chicken Breast", 799/100, 450, "", ""⟩)]

/-- `barcode.replace(/^[^0-9]*|[^0-9]*$/g, '')`: strip the leading run
and the trailing run of non-digit characters.  Interior non-digits are
left in place. -/
def cleanBarcode (s : String) : String :=
  String.mk
    (((s.toList.dropWhile (fun c => !c.isDigit)).reverse.dropWhile
        (fun c => !c.isDigit)).reverse)

/-- JS `String.padStart(n, '0')`: left-pad with zeros up to length `n`
(no-op when already at least that long). -/
def padStartZeros (s : String) (n : Nat) : String :=
  String.mk (List.replicate (n - s.length) '0') ++ s

/-- A resolver hit: the catalog product together with the barcode
variation that matched (`{...product, barcode: variation}`). -/
structure ResolvedProduct where
  product : HardwareProduct
  barcode : String
  deriving DecidableEq, Repr

/-- The `for (const variation of variations)` loop: first variation with
a catalog hit wins. -/
def firstVariationMatch : List String → Option ResolvedProduct
  | [] => none
  | v :: rest =>
    match dbLookup productDatabase v with
    | some p => some { product := p, barcode := v }
    | none => firstVariationMatch rest

/-- `lookupProduct(barcode)` at lines 170-202: try the cleaned code,
then the raw code, then the cleaned code zero-padded to 12 and to 13
digits, then the cleaned code without its first character, then without
its last character. -/
def lookupProduct (barcode : String) : Option ResolvedProduct :=
  let clean := cleanBarcode barcode
  match dbLookup productDatabase clean with
  | some p => some { product := p, barcode := clean }
  | none =>
    match dbLookup productDatabase barcode with
    | some p => some { product := p, barcode := barcode }
    | none =>
      firstVariationMatch
        [padStartZeros clean 12, padStartZeros clean 13,
         String.mk clean.toList.tail, String.mk clean.toList.dropLast]

/-- Modelled from the spec: the matching order exactly as claim C7 words
it — raw code first, then the code with ALL non-digit characters
stripped, then its padded/truncated variants.  Used only to compare
against the code's actual `lookupProduct`. -/
def lookupProductClaimed (barcode : String) : Option ResolvedProduct :=
  let cleanAll := String.mk (barcode.toList.filter (fun c => c.isDigit))
  firstVariationMatch
    [barcode, cleanAll, padStartZeros cleanAll 12, padStartZeros cleanAll 13,
     String.mk cleanAll.toList.tail, String.mk cleanAll.toList.dropLast]

/-- The synthetic product `handleUnknownProduct` builds at lines 261-277:
id `"unknown_" + barcode`, nominal weight 100 g, placeholder price 0.99. -/
def unknownProduct (barcode : String) : HardwareProduct :=
  { id := "unknown_" ++ barcode
    name := "Unknown Product (" ++ barcode ++ ")"
    price := 99/100
    weight := 100
    category := "unknown"
    brand := "Unknown Brand" }

/-- The POST body of `addToCart`/`sendToCart`, restricted to the fields
the claims mention. -/
structure CartAddPayload where
  user_id : String
  product_id : String
  quantity : Int
  scan_type : String
  scan_value : String
  deriving DecidableEq, Repr

/-- The payload `NodeBarcodeScanner.addToCart` posts for a product and
the raw scanned barcode. -/
def mkBarcodePayload (p : HardwareProduct) (barcode : String) : CartAddPayload :=
  { user_id := "demo_user", product_id := p.id, quantity := 1,
    scan_type := "barcode", scan_value := barcode }

/-- `handleBarcodeData` at lines 145-168 as one step: reject codes
shorter than 8 characters, suppress recent duplicates, then resolve —
falling back to `handleUnknownProduct`, which still posts a cart-add.
Returns the issued cart-add (if any) and the updated dedup map. -/
def handleBarcodeData (barcode : String) (now : Int) (recent : List (String × Int)) :
    Option CartAddPayload × List (String × Int) :=
  if barcode.length < 8 then
    (none, recent)
  else
    let r := isRecentScan barcode now recent
    if r.1 then
      (none, r.2)
    else
      match lookupProduct barcode with
      | some rp => (some (mkBarcodePayload rp.product barcode), r.2)
      | none => (some (mkBarcodePayload (unknownProduct barcode) barcode), r.2)

/-- `RFIDReaderNode.processRFIDCode` at lines 101-127: look the code up
in `productMapping`; a hit posts a cart-add whose `scan_value` is the
product id; a miss logs a warning, flashes the error indicator and posts
NOTHING. -/
def processRFIDCode (rfidCode : String) : Option CartAddPayload :=
  match dbLookup productMapping rfidCode with
  | some p =>
    some { user_id := "demo_user", product_id := p.id, quantity := 1,
           scan_type := "rfid", scan_value := p.id }
  | none => none

/-! ## Load-cell stabilizer (load_cell_esp32.ino) -/

/-- The ESP32 globals the stabilizer reads and writes:
`currentWeight` (the smoothed weight), `previousWeight` (the smoothed
weight of the previous cycle), `stableWeight`, `stableCount`,
`weightStable`, and the HX711 calibration factor. -/
structure LoadCellState where
  currentWeight : ℚ
  previousWeight : ℚ
  stableWeight : ℚ
  stableCount : Nat
  weightStable : Bool
  scaleFactor : ℚ
  deriving DecidableEq, Repr

/-- `STABLE_READING_COUNT`. -/
def stableReadingCount : Nat := 5

/-- Globals after `setup()`: everything zeroed, default
`CALIBRATION_FACTOR` 1000. -/
def initialScaleState : LoadCellState :=
  { currentWeight := 0, previousWeight := 0, stableWeight := 0,
    stableCount := 0, weightStable := false, scaleFactor := 1000 }

/-- `readWeight()` at lines 121-168 on one raw sample: smooth with the
0.7 / 0.3 filter, bump the stability counter when the smoothed value
moved less than 5 g since the previous cycle (reset it otherwise),
declare stability at 5 consecutive in-tolerance samples, and latch
`stableWeight` on the false-to-true edge. -/
def readWeight (s : LoadCellState) (rawWeight : ℚ) : LoadCellState :=
  let newWeight := s.currentWeight * (7/10) + rawWeight * (3/10)
  let newCount : Nat :=
    if |newWeight - s.previousWeight| < 5 then s.stableCount + 1 else 0
  let newStable : Bool := decide (stableReadingCount ≤ newCount)
  { currentWeight := newWeight
    previousWeight := newWeight
    stableWeight := if newStable && !s.weightStable then newWeight else s.stableWeight
    stableCount := newCount
    weightStable := newStable
    scaleFactor := s.scaleFactor }

/-- Feed a list of raw samples through `readWeight` in order. -/
def runReads (s : LoadCellState) (raws : List ℚ) : LoadCellState :=
  raws.foldl readWeight s

/-- `tareScale()` at lines 240-246: `scale.tare()` (hardware offset,
outside this state), then `currentWeight = 0.0; stableWeight = 0.0`.
`stableCount` and `previousWeight` are NOT touched. -/
def tareScale (s : LoadCellState) : LoadCellState :=
  { s with currentWeight := 0, stableWeight := 0 }

/-- `calibrateLoadCell()` at lines 211-237: read the known weight and a
raw value, then `scale.set_scale(rawValue / knownWeight)`.  None of the
stabilizer globals are touched. -/
def calibrateLoadCell (s : LoadCellState) (knownWeight rawValue : ℚ) : LoadCellState :=
  { s with scaleFactor := rawValue / knownWeight }

/-! ## Weight reconciliation (WeightCheckPage in StoreMapPage.tsx) -/

/-- `expectedWeight`: `cartItems.reduce((sum, item) => sum +
((item.product.weight || 0) * item.quantity), 0)`. -/
def expectedWeight (items : List CartItem) : ℚ :=
  items.foldl (fun sum it => sum + (it.product.weight.getD 0) * (it.quantity : ℚ)) 0

/-- `tolerance = expectedWeight * 0.05`. -/
def toleranceGrams (items : List CartItem) : ℚ :=
  expectedWeight items * (5/100)

/-- `isWeightMatch = Math.abs(currentWeight - expectedWeight) <=
tolerance`. -/
def isWeightMatch (measured : ℚ) (items : List CartItem) : Bool :=
  decide (|measured - expectedWeight items| ≤ toleranceGrams items)

/-- A concrete one-entry cart weighing exactly 1000 g, for the worked
example of claim C8. -/
def milkCartItem : CartItem :=
  { product := { id := "3", name := "Fresh Milk", price := 349/100,
                 weight := some 1000, category := "dairy" },
    quantity := 1, addedAt := 0 }

/-! ## Helper lemmas -/

theorem map_id_on {α : Type _} (f : α → α) :
    ∀ l : List α, (∀ x ∈ l, f x = x) → l.map f = l := by
  intro l
  induction l with
  | nil => intro _; rfl
  | cons x xs ih =>
    intro h
    simp only [List.map_cons, h x (List.mem_cons_self x xs),
      ih (fun y hy => h y (List.mem_cons_of_mem x hy))]

theorem applyPageEvent_quantity_ge_one (items : List CartItem) (e : PageCartEvent)
    (he : addQtyPositive e) (hinv : ∀ it ∈ items, 1 ≤ it.quantity) :
    ∀ it ∈ applyPageEvent items e, 1 ≤ it.quantity := by
  cases e with
  | add p q now =>
    simp only [addQtyPositive] at he
    intro it hit
    simp only [applyPageEvent, handleAddToCart] at hit
    split at hit
    · rcases List.mem_map.mp hit with ⟨x, hx, rfl⟩
      split
      · have := hinv x hx
        show (1 : Int) ≤ x.quantity + q
        omega
      · exact hinv x hx
    · rcases List.mem_append.mp hit with h | h
      · exact hinv it h
      · rw [List.mem_singleton] at h
        subst h
        exact he
  | setQuantity pid q =>
    intro it hit
    simp only [applyPageEvent, handleUpdateQuantity] at hit
    split at hit
    · exact hinv it (List.mem_of_mem_filter hit)
    · rcases List.mem_map.mp hit with ⟨x, hx, rfl⟩
      split
      · show (1 : Int) ≤ q
        omega
      · exact hinv x hx
  | remove pid =>
    intro it hit
    exact hinv it (List.mem_of_mem_filter hit)

theorem applyPageEvents_quantity_ge_one (evs : List PageCartEvent) :
    ∀ items : List CartItem, (∀ e ∈ evs, addQtyPositive e) →
      (∀ it ∈ items, 1 ≤ it.quantity) →
      ∀ it ∈ applyPageEvents evs items, 1 ≤ it.quantity := by
  induction evs with
  | nil =>
    intro items _ hinv it hit
    exact hinv it (by simpa [applyPageEvents] using hit)
  | cons e rest ih =>
    intro items hall hinv
    have h1 : ∀ it ∈ applyPageEvent items e, 1 ≤ it.quantity :=
      applyPageEvent_quantity_ge_one items e (hall e (List.mem_cons_self e rest)) hinv
    have h2 := ih (applyPageEvent items e)
      (fun x hx => hall x (List.mem_cons_of_mem e hx)) h1
    intro it hit
    exact h2 it (by simpa [applyPageEvents, List.foldl_cons] using hit)

theorem wsAddItem_found (pid : String) (q : Int) (ms : ℚ) :
    ∀ (pre : List CartItem) (post : List CartItem) (it : CartItem),
      (∀ x ∈ pre, x.product.id ≠ pid) → it.product.id = pid →
      wsAddItem pid q ms (pre ++ it :: post) =
        pre ++ { it with quantity := it.quantity + q } :: post := by
  intro pre
  induction pre with
  | nil =>
    intro post it _ hit
    simp [wsAddItem, hit]
  | cons x xs ih =>
    intro post it hpre hit
    have hx : x.product.id ≠ pid := hpre x (List.mem_cons_self x xs)
    simp only [List.cons_append, wsAddItem, if_neg hx]
    exact congrArg (fun l => x :: l)
      (ih post it (fun y hy => hpre y (List.mem_cons_of_mem x hy)) hit)

theorem wsAddItem_not_found (pid : String) (q : Int) (ms : ℚ) :
    ∀ items : List CartItem, (∀ x ∈ items, x.product.id ≠ pid) →
      wsAddItem pid q ms items =
        items ++ [{ product := wsPlaceholderProduct pid, quantity := q, addedAt := ms }] := by
  intro items
  induction items with
  | nil =>
    intro _
    simp [wsAddItem]
  | cons x xs ih =>
    intro h
    have hx : x.product.id ≠ pid := h x (List.mem_cons_self x xs)
    simp only [wsAddItem, if_neg hx, List.cons_append]
    rw [ih (fun y hy => h y (List.mem_cons_of_mem x hy))]

theorem iterateClose_add (a b : Nat) (s : WebSocketClientState) :
    iterateClose (a + b) s = iterateClose b (iterateClose a s) := by
  induction a generalizing s with
  | zero => simp [iterateClose]
  | succ a ih =>
    rw [Nat.succ_add]
    show iterateClose (a + b) (onClose s) = iterateClose b (iterateClose a (onClose s))
    exact ih (onClose s)

theorem iterateClose_failed_absorbs (k : Nat) :
    iterateClose k
        ⟨false, some "Max reconnection attempts reached", 5, none⟩ =
      ⟨false, some "Max reconnection attempts reached", 5, none⟩ := by
  induction k with
  | zero => rfl
  | succ k ih =>
    show iterateClose k
      (onClose ⟨false, some "Max reconnection attempts reached", 5, none⟩) = _
    have honce : onClose ⟨false, some "Max reconnection attempts reached", 5, none⟩ =
        ⟨false, some "Max reconnection attempts reached", 5, none⟩ := by decide
    rw [honce, ih]

theorem allowScan_true_iff (code : String) (now : Int) (m : List (String × Int)) :
    (allowScan code now m).1 = true ↔ ∀ p ∈ m, p.1 = code → now - p.2 > 2000 := by
  simp only [allowScan, isRecentScan]
  split
  · next h =>
    simp only [Bool.not_true]
    constructor
    · intro hfalse
      cases hfalse
    · intro hall
      exfalso
      rcases List.any_eq_true.mp h with ⟨p, hp, hpc⟩
      simp only [sweepScans] at hp
      rcases List.mem_filter.mp hp with ⟨hpm, hple⟩
      have hc : p.1 = code := by simpa using hpc
      have h2 := hall p hpm hc
      have h3 : now - p.2 ≤ 2000 := by simpa using hple
      linarith
  · next h =>
    simp only [Bool.not_false, true_iff]
    intro p hp hpc
    by_contra hgt
    push_neg at hgt
    apply h
    rw [List.any_eq_true]
    refine ⟨p, ?_, by simp [hpc]⟩
    simp only [sweepScans]
    exact List.mem_filter.mpr ⟨hp, by simpa using hgt⟩

theorem allowScan_suppressed_keeps_map (code : String) (now : Int) (m : List (String × Int))
    (h : (allowScan code now m).1 = false) :
    (allowScan code now m).2 = sweepScans now m := by
  simp only [allowScan, isRecentScan] at h ⊢
  split at h
  · next hc =>
    simp [hc]
  · next hc =>
    simp at h

theorem allowScan_admitted_appends (code : String) (now : Int) (m : List (String × Int))
    (h : (allowScan code now m).1 = true) :
    (allowScan code now m).2 = sweepScans now m ++ [(code, now)] := by
  simp only [allowScan, isRecentScan] at h ⊢
  split at h
  · next hc =>
    simp at h
  · next hc =>
    simp [hc]

/-! ## Claim theorems -/

/-- C1 (corrected).  In the page-level cart state machine
(`Index.tsx`): `handleUpdateQuantity` with a quantity at most 0 is
exactly `handleRemoveItem`, and every event sequence whose `add` events
carry positive quantities, applied to the empty cart, leaves only
entries with quantity at least 1.  The original claim extended this
invariant to the WebSocket handler's `update` action, which in fact
stores any quantity unconditionally — see the counterexample. -/
theorem C1_page_cart_quantity_invariant :
    (∀ (pid : String) (q : Int) (items : List CartItem), q ≤ 0 →
      handleUpdateQuantity pid q items = handleRemoveItem pid items) ∧
    (∀ evs : List PageCartEvent, (∀ e ∈ evs, addQtyPositive e) →
      ∀ it ∈ applyPageEvents evs [], 1 ≤ it.quantity) := by
  constructor
  · intro pid q items hq
    simp [handleUpdateQuantity, hq]
  · intro evs hall
    exact applyPageEvents_quantity_ge_one evs [] hall (by simp)

/-- C1 witness: instantiates both parts of the amended invariant at
concrete inputs. -/
theorem C1_page_cart_quantity_invariant_witness :
    handleUpdateQuantity "1" 0 [] = handleRemoveItem "1" [] ∧ (1 : Int) ≤ 2 := by
  constructor
  · exact C1_page_cart_quantity_invariant.1 "1" 0 [] le_rfl
  · exact C1_page_cart_quantity_invariant.2
      [PageCartEvent.add ⟨"A", "Apple", 1, some 100, "fruits", ""⟩ 2 0]
      (by intro e he; rw [List.mem_singleton] at he; subst he; exact one_le_two)
      { product := ⟨"A", "Apple", 1, some 100, "fruits", ""⟩, quantity := 2, addedAt := 0 }
      (by decide)

/-- C1 counterexample: in the WebSocket handler (`handleCartUpdate`,
`useCartUpdates.ts` lines 91-100), adding product "P" and then sending
`update` with quantity 0 leaves an entry stored with quantity 0 — the
entry is NOT removed, refuting the claim that quantity 0 is never
stored. -/
theorem C1_ws_update_stores_zero :
    (wsHandleCartUpdate
        { user_id := "u", action := CartAction.update, product_id := some "P",
          quantity := some 0, timestamp := 2 }
        (wsHandleCartUpdate
          { user_id := "u", action := CartAction.add, item := some ("P", 1), timestamp := 1 }
          [])).map (fun it => it.quantity) = [0] := by
  rfl

/-- C2 (confirmed).  Add-merge semantics of the cart: in the WebSocket
handler, `Add(P, qty)` on a cart already holding `P` bumps exactly that
entry's quantity by `qty` and leaves every other entry unchanged; on a
cart without `P` it appends a fresh entry with quantity `qty` and
`addedAt` equal to the event's arrival timestamp (`message.timestamp`,
converted to `Date` milliseconds).  The page-level `handleAddToCart`
behaves the same, stamping `addedAt` with the arrival time `now`.
`Add(P,1)` then `Add(P,2)` on the empty cart yields quantity 3. -/
theorem C2_add_merge_semantics :
    (∀ (pre post : List CartItem) (it : CartItem) (pid : String) (q : Int) (ms : ℚ),
      (∀ x ∈ pre, x.product.id ≠ pid) → it.product.id = pid →
      wsAddItem pid q ms (pre ++ it :: post) =
        pre ++ { it with quantity := it.quantity + q } :: post) ∧
    (∀ (m : CartUpdateMessage) (pid : String) (q : Int) (items : List CartItem),
      m.action = CartAction.add → m.item = some (pid, q) →
      (∀ x ∈ items, x.product.id ≠ pid) →
      wsHandleCartUpdate m items =
        items ++ [{ product := wsPlaceholderProduct pid, quantity := q,
                    addedAt := m.timestamp * 1000 }]) ∧
    (∀ (p : Product) (q : Int) (now : ℚ) (items : List CartItem),
      (∀ x ∈ items, x.product.id ≠ p.id) →
      handleAddToCart p q now items =
        items ++ [{ product := p, quantity := q, addedAt := now }]) ∧
    (∀ (pre post : List CartItem) (it : CartItem) (p : Product) (q : Int) (now : ℚ),
      (∀ x ∈ pre, x.product.id ≠ p.id) → it.product.id = p.id →
      (∀ x ∈ post, x.product.id ≠ p.id) →
      handleAddToCart p q now (pre ++ it :: post) =
        pre ++ { it with quantity := it.quantity + q } :: post) ∧
    ((wsHandleCartUpdate
        { user_id := "u", action := CartAction.add, item := some ("P", 2), timestamp := 1 }
        (wsHandleCartUpdate
          { user_id := "u", action := CartAction.add, item := some ("P", 1), timestamp := 0 }
          [])).map (fun it => it.quantity) = [3]) := by
  refine ⟨?_, ?_, ?_, ?_, ?_⟩
  · intro pre post it pid q ms hpre hit
    exact wsAddItem_found pid q ms pre post it hpre hit
  · intro m pid q items ha hi hnone
    simp only [wsHandleCartUpdate, ha, hi]
    exact wsAddItem_not_found pid q (m.timestamp * 1000) items hnone
  · intro p q now items h
    have hany : items.any (fun it => it.product.id == p.id) = false := by
      rw [List.any_eq_false]
      intro x hx
      simpa using h x hx
    simp [handleAddToCart, hany]
  · intro pre post it p q now hpre hit hpost
    have hany : (pre ++ it :: post).any (fun x => x.product.id == p.id) = true := by
      rw [List.any_eq_true]
      exact ⟨it, by simp, by simp [hit]⟩
    simp only [handleAddToCart, hany, if_true, List.map_append, List.map_cons, if_pos hit]
    rw [map_id_on _ pre (fun x hx => by rw [if_neg (hpre x hx)]),
        map_id_on _ post (fun x hx => by rw [if_neg (hpost x hx)])]
  · rfl

/-- C2 witness: merging `Add(P, 2)` into a one-entry cart holding `P`
with quantity 1 yields quantity 3, by the merge part of the theorem. -/
theorem C2_add_merge_semantics_witness :
    wsAddItem "P" 2 0 [{ product := wsPlaceholderProduct "P", quantity := 1, addedAt := 0 }] =
      [{ product := wsPlaceholderProduct "P", quantity := 3, addedAt := 0 }] := by
  have h := C2_add_merge_semantics.1 [] []
    { product := wsPlaceholderProduct "P", quantity := 1, addedAt := 0 } "P" 2 0
    (by simp) rfl
  simpa using h

/-- C3 (corrected).  Reconnect policy of `useWebSocket`: every close
event with the attempt counter below 5 schedules exactly one reconnect
after the fixed 5000 ms interval and increments the counter; a close at
counter 5 surfaces the terminal error and schedules nothing; a
successful open resets the counter to 0.  However, Failed is reached
only at the SIXTH consecutive close from a fresh connection (the
initial failure plus 5 failed reconnect attempts), not the fifth as the
claim stated — see the counterexample; from the sixth close on, no
reconnect is ever scheduled again. -/
theorem C3_reconnect_bound :
    (∀ s : WebSocketClientState, s.reconnectAttempts < 5 →
      onClose s = { s with isConnected := false,
                           reconnectAttempts := s.reconnectAttempts + 1,
                           pendingReconnectMs := some 5000 }) ∧
    (∀ s : WebSocketClientState, 5 ≤ s.reconnectAttempts →
      onClose s = { s with isConnected := false,
                           error := some "Max reconnection attempts reached",
                           pendingReconnectMs := none }) ∧
    ((iterateClose 6 initialClientState).error = some "Max reconnection attempts reached" ∧
      (iterateClose 6 initialClientState).pendingReconnectMs = none) ∧
    (∀ n : Nat, 6 ≤ n →
      (iterateClose n initialClientState).pendingReconnectMs = none ∧
      (iterateClose n initialClientState).error = some "Max reconnection attempts reached") ∧
    (∀ s : WebSocketClientState,
      onOpen s = { s with isConnected := true, error := none,
                          reconnectAttempts := 0, pendingReconnectMs := none }) := by
  refine ⟨?_, ?_, by decide, ?_, fun s => rfl⟩
  · intro s h
    unfold onClose
    rw [if_pos (show s.reconnectAttempts < maxReconnectAttempts from h)]
    rfl
  · intro s h
    unfold onClose
    rw [if_neg (show ¬s.reconnectAttempts < maxReconnectAttempts from Nat.not_lt.mpr h)]
  · intro n hn
    obtain ⟨k, rfl⟩ := Nat.exists_eq_add_of_le hn
    rw [iterateClose_add 6 k initialClientState]
    have h6 : iterateClose 6 initialClientState =
        ⟨false, some "Max reconnection attempts reached", 5, none⟩ := by decide
    rw [h6, iterateClose_failed_absorbs k]
    exact ⟨rfl, rfl⟩

/-- C3 witness: the very first close schedules a 5000 ms reconnect and
moves the counter to 1; the seventh close finds the terminal state. -/
theorem C3_reconnect_bound_witness :
    onClose initialClientState =
      { initialClientState with isConnected := false, reconnectAttempts := 1,
                                pendingReconnectMs := some 5000 } ∧
    (iterateClose 7 initialClientState).pendingReconnectMs = none :=
  ⟨C3_reconnect_bound.1 initialClientState (by decide),
   (C3_reconnect_bound.2.2.2.1 7 (by decide)).1⟩

/-- C3 counterexample: after exactly 5 consecutive close events from a
fresh connection the counter has just reached 5, a fifth reconnect IS
still scheduled (5000 ms timer pending) and no error is surfaced — the
claim's "after 5 consecutive close events the state becomes Failed and
no further reconnect is scheduled" is false at this input. -/
theorem C3_five_closes_still_reconnecting :
    (iterateClose 5 initialClientState).pendingReconnectMs = some 5000 ∧
    (iterateClose 5 initialClientState).error = none := by
  decide

/-- C4 (corrected).  The dedup filter admits a call exactly when the
(swept) map holds no entry for the code within the last 2000 ms — and
since the map records only the timestamp of the last ADMITTED call of
each code, and a suppressed call leaves the map untouched apart from the
sweep (NO timestamp refresh, contrary to the claim — see the
counterexample), admission is governed by the last admitted same-code
call, not the last call.  Entries strictly older than 2000 ms are
evicted by the sweep.  Two same-code calls 500 ms apart: second
suppressed; 2500 ms apart: both admitted. -/
theorem C4_dedup_filter :
    (∀ (code : String) (now : Int) (m : List (String × Int)),
      (allowScan code now m).1 = true ↔ ∀ p ∈ m, p.1 = code → now - p.2 > 2000) ∧
    (∀ (code : String) (now : Int) (m : List (String × Int)),
      (allowScan code now m).1 = false →
      (allowScan code now m).2 = sweepScans now m) ∧
    (∀ (code : String) (now : Int) (m : List (String × Int)),
      (allowScan code now m).1 = true →
      (allowScan code now m).2 = sweepScans now m ++ [(code, now)]) ∧
    (∀ (now : Int) (m : List (String × Int)) (p : String × Int),
      p ∈ sweepScans now m ↔ p ∈ m ∧ now - p.2 ≤ 2000) ∧
    (runScanDecisions [("RF001", 0), ("RF001", 500)] [] = [true, false]) ∧
    (runScanDecisions [("RF001", 0), ("RF001", 2500)] [] = [true, true]) := by
  refine ⟨allowScan_true_iff, allowScan_suppressed_keeps_map,
          allowScan_admitted_appends, ?_, rfl, rfl⟩
  intro now m p
  simp only [sweepScans, List.mem_filter, decide_eq_true_eq]

/-- C4 witness: a suppressed call 500 ms after an admitted one leaves
the map exactly as the sweep left it — the stored timestamp 0 is not
refreshed. -/
theorem C4_dedup_filter_witness :
    (allowScan "RF001" 500 [("RF001", 0)]).2 = sweepScans 500 [("RF001", 0)] :=
  C4_dedup_filter.2.1 "RF001" 500 [("RF001", 0)] (by decide)

/-- C4 counterexample: three same-code calls at t = 0, 1500, 3000 ms.
The claim's contract (suppress whenever ANY same-code call lies within
the preceding 2000 ms, refreshing the stored timestamp on suppression)
predicts decisions [admit, suppress, suppress].  The code never
refreshes on suppression, so the stored timestamp stays 0, is evicted
at t = 3000, and the third call is admitted: [admit, suppress, admit]. -/
theorem C4_no_refresh_on_suppress :
    runScanDecisions [("RF001", 0), ("RF001", 1500), ("RF001", 3000)] [] =
      [true, false, true] ∧
    claimedDecisions [("RF001", 0), ("RF001", 1500), ("RF001", 3000)] =
      [true, false, false] := by
  constructor <;> rfl

/-- C10 (confirmed).  Per-user isolation of `handleMessage`
(`useCartUpdates.ts` lines 41-47): a `cart_update` whose `user_id`
differs from the session's `userId` leaves the whole session state
untouched; the cart can only change through a `cart_update` carrying the
matching `user_id`; a `weight_update` is applied regardless of user. -/
theorem C10_per_user_message_isolation :
    (∀ (userId : String) (m : CartUpdateMessage) (s : SessionState),
      m.user_id ≠ userId → handleMessage userId (InboundMessage.cartUpdate m) s = s) ∧
    (∀ (userId d : String) (w : ℚ) (st : Bool) (ts : ℚ) (s : SessionState),
      handleMessage userId (InboundMessage.weightUpdate d w st ts) s =
        { s with currentWeight := w, weightStable := st }) ∧
    (∀ (userId : String) (msg : InboundMessage) (s : SessionState),
      (handleMessage userId msg s).cartItems ≠ s.cartItems →
      ∃ m, msg = InboundMessage.cartUpdate m ∧ m.user_id = userId) := by
  refine ⟨?_, ?_, ?_⟩
  · intro userId m s hne
    simp [handleMessage, hne]
  · intro userId d w st ts s
    rfl
  · intro userId msg s hch
    cases msg with
    | cartUpdate m =>
      refine ⟨m, rfl, ?_⟩
      by_contra hne
      apply hch
      simp [handleMessage, hne]
    | weightUpdate d w st ts =>
      exact absurd rfl hch

/-- C10 witness: a `cart_update` for user "user_b" received by the
session of "user_a" changes nothing. -/
theorem C10_per_user_message_isolation_witness :
    handleMessage "user_a"
      (InboundMessage.cartUpdate
        { user_id := "user_b", action := CartAction.add, item := some ("P", 1),
          timestamp := 0 })
      { cartItems := [], currentWeight := 0, weightStable := false, lastUpdate := 0 } =
      { cartItems := [], currentWeight := 0, weightStable := false, lastUpdate := 0 } :=
  C10_per_user_message_isolation.1 "user_a"
    { user_id := "user_b", action := CartAction.add, item := some ("P", 1), timestamp := 0 }
    { cartItems := [], currentWeight := 0, weightStable := false, lastUpdate := 0 }
    (by decide)

theorem foldl_add_map_sum {α : Type _} (f : α → ℚ) (l : List α) :
    ∀ a : ℚ, l.foldl (fun s x => s + f x) a = a + (l.map f).sum := by
  induction l with
  | nil => intro a; simp
  | cons x xs ih => intro a; simp [ih, add_assoc]

/-- C5 (corrected).  Unresolved scan codes: the BARCODE pipeline never
fails — a code that passes validation (length at least 8), is outside
the dedup cooldown and matches no catalog variant is resolved to the
synthetic product with id `"unknown_" + code` and nominal weight 100 g,
and a cart-add is still posted for it.  The RFID pipeline, by contrast,
treats an unknown code as an error and posts NO cart-add (see the
counterexample), so the original "of any kind" is false. -/
theorem C5_unknown_barcode_still_added :
    (∀ (code : String) (now : Int) (recent : List (String × Int)),
      8 ≤ code.length → (isRecentScan code now recent).1 = false →
      lookupProduct code = none →
      (handleBarcodeData code now recent).1 =
        some (mkBarcodePayload (unknownProduct code) code)) ∧
    (∀ code : String, (unknownProduct code).id = "unknown_" ++ code ∧
      (unknownProduct code).weight = 100) ∧
    (∀ code : String, dbLookup productMapping code = none → processRFIDCode code = none) := by
  refine ⟨?_, fun code => ⟨rfl, rfl⟩, ?_⟩
  · intro code now recent hlen hrec hlook
    simp [handleBarcodeData, Nat.not_lt.mpr hlen, hrec, hlook]
  · intro code h
    simp [processRFIDCode, h]

/-- C5 witness: the all-digit code "99999999" matches no variant, yet a
cart-add for `unknown_99999999` is issued; an unmapped RFID code yields
none. -/
theorem C5_unknown_barcode_still_added_witness :
    (handleBarcodeData "99999999" 0 []).1 =
      some (mkBarcodePayload (unknownProduct "99999999") "99999999") ∧
    processRFIDCode "ZZZZ9999" = none :=
  ⟨C5_unknown_barcode_still_added.1 "99999999" 0 [] (by decide) rfl rfl,
   C5_unknown_barcode_still_added.2.2 "ZZZZ9999" rfl⟩

/-- C5 counterexample: the RFID reader resolves the unknown code
"ZZZZZZ" to NO product and posts NO cart-add — it logs a warning and
flashes the error indicator instead — refuting "for every scanned code
(of any kind) ... a cart-add is still issued". -/
theorem C5_rfid_unknown_is_error :
    processRFIDCode "ZZZZZZ" = none := rfl

/-- C6 (confirmed).  The load-cell stabilizer: each raw sample yields
the smoothed weight `0.7 * previous + 0.3 * raw`; the stability counter
increments when the smoothed weight moved less than 5 g since the
previous cycle and resets to 0 otherwise; `weightStable` holds exactly
when the counter reaches 5.  (In `readWeight`, `previousWeight` always
equals the previous cycle's smoothed `currentWeight`, so the filter is
applied to the previous smoothed value exactly as the claim states.)
Concretely: five in-tolerance samples from the initial state give
stability, and a next sample departing by 50 g (smoothed movement 15 g)
resets the counter to 0 and stability to false. -/
theorem C6_weight_stabilizer :
    (∀ (s : LoadCellState) (raw : ℚ),
      (readWeight s raw).currentWeight = s.currentWeight * (7/10) + raw * (3/10)) ∧
    (∀ (s : LoadCellState) (raw : ℚ),
      (readWeight s raw).stableCount =
        if |s.currentWeight * (7/10) + raw * (3/10) - s.previousWeight| < 5 then
          s.stableCount + 1
        else 0) ∧
    (∀ (s : LoadCellState) (raw : ℚ),
      (readWeight s raw).weightStable = decide (5 ≤ (readWeight s raw).stableCount)) ∧
    ((runReads initialScaleState [0, 0, 0, 0, 0]).stableCount = 5 ∧
     (runReads initialScaleState [0, 0, 0, 0, 0]).weightStable = true) ∧
    ((readWeight (runReads initialScaleState [0, 0, 0, 0, 0]) 50).stableCount = 0 ∧
     (readWeight (runReads initialScaleState [0, 0, 0, 0, 0]) 50).weightStable = false) := by
  have hrun : runReads initialScaleState [0, 0, 0, 0, 0] = ⟨0, 0, 0, 5, true, 1000⟩ := by
    norm_num [runReads, readWeight, initialScaleState, stableReadingCount]
  refine ⟨fun s raw => rfl, fun s raw => rfl, fun s raw => rfl, ?_, ?_⟩
  · rw [hrun]
    exact ⟨rfl, rfl⟩
  · rw [hrun]
    constructor <;> norm_num [readWeight, stableReadingCount]

/-- C7 (corrected).  The resolver tries, in order: the CLEANED code
(leading and trailing non-digit characters stripped — interior
non-digits are NOT removed, contrary to the claim's "non-digit
characters stripped"), then the raw code, then the cleaned code
zero-padded to 12 and to 13 digits, then the cleaned code with its
first character removed, then with its last character removed; the
first catalog hit wins.  The claim's order (raw first, full stripping)
diverges on codes with interior non-digits — see the counterexample. -/
theorem C7_matching_order :
    (∀ code : String,
      lookupProduct code =
        firstVariationMatch
          [cleanBarcode code, code,
           padStartZeros (cleanBarcode code) 12, padStartZeros (cleanBarcode code) 13,
           String.mk (cleanBarcode code).toList.tail,
           String.mk (cleanBarcode code).toList.dropLast]) ∧
    (lookupProduct "ab000000000001cd" =
      some { product := ⟨"2", "Whole Wheat Bread", 199/100, 400, "bakery", "Artisan Bakery"⟩,
             barcode := "000000000001" }) := by
  constructor
  · intro code
    cases h1 : dbLookup productDatabase (cleanBarcode code) with
    | some p => simp [lookupProduct, firstVariationMatch, h1]
    | none =>
      cases h2 : dbLookup productDatabase code with
      | some p => simp [lookupProduct, firstVariationMatch, h1, h2]
      | none => simp [lookupProduct, firstVariationMatch, h1, h2]
  · rfl

/-- C7 counterexample: for the scan code "1234a56789012" (an interior
non-digit), the claim's resolver strips all non-digits, obtains
"123456789012" and finds Test Product; the code's resolver strips only
leading/trailing non-digits, keeps the `a`, and finds NOTHING. -/
theorem C7_interior_nondigit_diverges :
    lookupProduct "1234a56789012" = none ∧
    lookupProductClaimed "1234a56789012" =
      some { product := ⟨"9", "Test Product", 1, 100, "test", "Test Brand"⟩,
             barcode := "123456789012" } := by
  constructor <;> rfl

/-- C8 (confirmed).  Weight reconciliation in `WeightCheckPage`:
`expectedWeight` is the sum over the cart of (nominal product weight,
defaulting to 0 when absent) times quantity; the tolerance is 5 percent
of the expected weight; the weight matches exactly when the absolute
difference is at most the tolerance.  Worked example: a 1000 g cart
matches a 1040 g reading (diff 40 ≤ 50) and rejects 1100 g
(diff 100 > 50). -/
theorem C8_weight_reconciliation :
    (∀ items : List CartItem,
      expectedWeight items =
        (items.map (fun it => it.product.weight.getD 0 * (it.quantity : ℚ))).sum) ∧
    (∀ items : List CartItem, toleranceGrams items = expectedWeight items * (5/100)) ∧
    (∀ (measured : ℚ) (items : List CartItem),
      isWeightMatch measured items = true ↔
        |measured - expectedWeight items| ≤ toleranceGrams items) ∧
    (expectedWeight [milkCartItem] = 1000) ∧
    (isWeightMatch 1040 [milkCartItem] = true) ∧
    (isWeightMatch 1100 [milkCartItem] = false) := by
  refine ⟨?_, fun items => rfl, ?_, ?_, ?_, ?_⟩
  · intro items
    simpa [expectedWeight] using
      foldl_add_map_sum (fun it : CartItem => it.product.weight.getD 0 * (it.quantity : ℚ))
        items 0
  · intro measured items
    simp [isWeightMatch]
  · norm_num [expectedWeight, milkCartItem]
  · norm_num [isWeightMatch, expectedWeight, toleranceGrams, milkCartItem]
  · norm_num [isWeightMatch, expectedWeight, toleranceGrams, milkCartItem]

/-- C9 (corrected).  `tareScale` zeroes the smoothed weight and the
latched stable weight but leaves the stability counter (and
`previousWeight` and the stability flag) untouched; `calibrateLoadCell`
only replaces the calibration factor with `rawValue / knownWeight` and
resets NEITHER the smoothed baseline nor the counter.  The claim's
"after tare() — and likewise after calibrate(knownWeight) — the
smoothed weight baseline equals zero and the stability counter equals
zero" fails on both counts — see the counterexample. -/
theorem C9_tare_calibrate_effects :
    (∀ s : LoadCellState,
      (tareScale s).currentWeight = 0 ∧ (tareScale s).stableWeight = 0 ∧
      (tareScale s).stableCount = s.stableCount ∧
      (tareScale s).previousWeight = s.previousWeight ∧
      (tareScale s).weightStable = s.weightStable) ∧
    (∀ (s : LoadCellState) (knownWeight rawValue : ℚ),
      (calibrateLoadCell s knownWeight rawValue).scaleFactor = rawValue / knownWeight ∧
      (calibrateLoadCell s knownWeight rawValue).currentWeight = s.currentWeight ∧
      (calibrateLoadCell s knownWeight rawValue).stableCount = s.stableCount) :=
  ⟨fun s => ⟨rfl, rfl, rfl, rfl, rfl⟩, fun s k r => ⟨rfl, rfl, rfl⟩⟩

/-- C9 counterexample: from a stabilizer state with counter 3 and
smoothed weight 42 g, `tareScale` leaves the counter at 3 (not 0), and
`calibrateLoadCell` leaves both the counter at 3 and the smoothed
weight at 42 g (not 0). -/
theorem C9_tare_does_not_reset_counter :
    (tareScale ⟨42, 42, 40, 3, false, 1000⟩).stableCount ≠ 0 ∧
    (calibrateLoadCell ⟨42, 42, 40, 3, false, 1000⟩ 100 50000).stableCount ≠ 0 ∧
    (calibrateLoadCell ⟨42, 42, 40, 3, false, 1000⟩ 100 50000).currentWeight ≠ 0 := by
  refine ⟨by decide, by decide, ?_⟩
  norm_num [calibrateLoadCell]

end FlexiCart
